import Mathlib

/-!
Verification of the uni-complaint-system backend (Flask application under
`src/backend/app`).  The Python data model and request handlers are shallowly
embedded as executable Lean definitions: machine timestamps become `Nat`
(seconds since the epoch), nullable columns become `Option`, SQLAlchemy
queries over the complaints table become functions over `List Complaint`,
and each route handler becomes a pure function from its inputs (the loaded
entities and the parsed request) to its observable effects (HTTP status code,
updated entities, created rows).
-/

/-! ## Generic list machinery (models of ORM `order_by` and substring `ilike`) -/

/-- Insertion step of the sort used to model SQL `ORDER BY`. -/
def insertLe {α : Type} (le : α → α → Bool) (a : α) : List α → List α
  | [] => [a]
  | x :: xs => if le a x then a :: x :: xs else x :: insertLe le a xs

/-- Sort a list by a boolean comparison; models SQL `ORDER BY` on a column. -/
def sortLe {α : Type} (le : α → α → Bool) : List α → List α
  | [] => []
  | x :: xs => insertLe le x (sortLe le xs)

theorem mem_insertLe {α : Type} (le : α → α → Bool) (a y : α) (l : List α) :
    y ∈ insertLe le a l ↔ y = a ∨ y ∈ l := by
  induction l with
  | nil => simp [insertLe]
  | cons x xs ih =>
    simp only [insertLe]
    by_cases h : le a x = true
    · simp [h]
    · simp only [if_neg h, List.mem_cons, ih]
      tauto

theorem mem_sortLe {α : Type} (le : α → α → Bool) (y : α) (l : List α) :
    y ∈ sortLe le l ↔ y ∈ l := by
  induction l with
  | nil => simp [sortLe]
  | cons x xs ih => simp [sortLe, mem_insertLe, ih]

/-- Does `pat` start `hay`?  Helper for the substring test below. -/
def charListStarts : List Char → List Char → Bool
  | [], _ => true
  | _ :: _, [] => false
  | a :: as, b :: bs => a == b && charListStarts as bs

/-- Does `pat` occur contiguously inside `hay`?  Models SQL `LIKE '%pat%'`. -/
def charListHasSub (pat : List Char) : List Char → Bool
  | [] => pat.isEmpty
  | c :: rest => charListStarts pat (c :: rest) || charListHasSub pat rest

/-- ASCII lower-casing of one character (Python `str.lower` on the
application's ASCII data). -/
def asciiLower (c : Char) : Char :=
  if 'A' ≤ c ∧ c ≤ 'Z' then Char.ofNat (c.toNat + 32) else c

/-- ASCII upper-casing of one character (Python `str.upper`). -/
def asciiUpper (c : Char) : Char :=
  if 'a' ≤ c ∧ c ≤ 'z' then Char.ofNat (c.toNat - 32) else c

/-- Python `str.lower`. -/
def pyLower (s : String) : String := ⟨s.toList.map asciiLower⟩

/-- Python `str.upper`. -/
def pyUpper (s : String) : String := ⟨s.toList.map asciiUpper⟩

/-- Drop leading whitespace characters. -/
def dropLeadingWs : List Char → List Char
  | [] => []
  | c :: rest => if c.isWhitespace then dropLeadingWs rest else c :: rest

/-- Python `str.strip`: drop leading and trailing whitespace. -/
def pyStrip (s : String) : String :=
  ⟨(dropLeadingWs (dropLeadingWs s.toList.reverse).reverse)⟩

/-- Case-insensitive substring test; models `column.ilike(f"%{search}%")`. -/
def ilikeContains (hay pat : String) : Bool :=
  charListHasSub (pyLower pat).toList (pyLower hay).toList

/-- Lexicographic order on character lists; stands in for the SQL string
collation when the sort column is a text column. -/
def charListLe : List Char → List Char → Bool
  | [], _ => true
  | _ :: _, [] => false
  | a :: as, b :: bs => if a < b then true else if b < a then false else charListLe as bs

/-- Boolean string order used by the sort model. -/
def strLeB (a b : String) : Bool := charListLe a.toList b.toList

/-! ## Data model (`app/models/complaint.py`, `response.py`, `notification.py`) -/

/-- Row of the `complaints` table (`app/models/complaint.py`).  Timestamps are
seconds since the epoch; nullable columns are `Option`. -/
structure Complaint where
  id : Nat
  ticket_number : String
  user_id : Nat
  category : String
  title : String
  description : String
  status : String
  priority : String
  assigned_to : Option Nat
  attachments : Option (List String)
  admin_notes : Option String
  created_at : Nat
  updated_at : Nat
  resolved_at : Option Nat
deriving Repr, DecidableEq

/-- Row of the `responses` table (`app/models/response.py`). -/
structure Response where
  id : Nat
  complaint_id : Nat
  user_id : Nat
  message : String
  is_internal : Bool
  attachments : Option (List String)
  created_at : Nat
deriving Repr, DecidableEq

/-- Row of the `notifications` table (`app/models/notification.py`), as
created by `Notification.create_notification`. -/
structure Notification where
  user_id : Nat
  notification_type : String
  title : String
  message : String
  complaint_id : Option Nat
deriving Repr, DecidableEq

namespace Complaint

/-- `Complaint.VALID_CATEGORIES`. -/
def VALID_CATEGORIES : List String :=
  ["transcript", "registration", "fees_payment", "accommodation", "examination",
   "clearance", "scholarship", "library", "id_card", "course_registration",
   "result_issues", "certificate", "admission", "transfer", "medical",
   "security", "facilities", "academic_advising", "other"]

/-- `Complaint.VALID_STATUSES`. -/
def VALID_STATUSES : List String :=
  ["pending", "in_progress", "resolved", "closed", "rejected"]

/-- `Complaint.VALID_PRIORITIES`. -/
def VALID_PRIORITIES : List String :=
  ["low", "medium", "high", "urgent"]

/-- `Complaint.update_status`: validates the new status, sets it, and stamps
`resolved_at` on the first transition into resolved/closed (`not
self.resolved_at` is the Python falsy test, i.e. the column is NULL).
Returns the Python method's boolean together with the updated row. -/
def update_status (c : Complaint) (new_status : String) (now : Nat) :
    Bool × Complaint :=
  if VALID_STATUSES.contains new_status then
    let c := { c with status := new_status }
    let c :=
      if (new_status == "resolved" || new_status == "closed") && c.resolved_at.isNone then
        { c with resolved_at := some now }
      else c
    (true, c)
  else
    (false, c)

end Complaint

/-- `update_status` applied to a whole sequence of status-update calls. -/
def apply_status_updates (c : Complaint) (us : List (String × Nat)) : Complaint :=
  us.foldl (fun c u => (Complaint.update_status c u.1 u.2).2) c

/-! ## C1: resolution timestamp idempotence -/

theorem update_status_resolved_at (c : Complaint) (s : String) (now : Nat) :
    ((Complaint.update_status c s now).2).resolved_at =
      if c.resolved_at = none ∧ (s = "resolved" ∨ s = "closed") then some now
      else c.resolved_at := by
  unfold Complaint.update_status
  by_cases hv : Complaint.VALID_STATUSES.contains s = true
  · simp only [hv, if_true]
    by_cases hs : (s == "resolved" || s == "closed") = true
    · by_cases hr : c.resolved_at = none
      · simp only [hs, hr, Option.isNone_none, Bool.and_true, if_true]
        simp only [beq_iff_eq] at hs
        rcases Bool.or_eq_true .. |>.mp hs with h | h <;> simp_all
      · have : c.resolved_at.isNone = false := by
          cases h : c.resolved_at <;> simp_all
        simp only [this, Bool.and_false, Bool.false_eq_true, if_false]
        simp only [beq_iff_eq] at hs
        rcases Bool.or_eq_true .. |>.mp hs with h | h <;> simp_all
    · have hs' : ¬ (s = "resolved" ∨ s = "closed") := by
        intro h; apply hs; rcases h with h | h <;> simp [h]
      simp [hs, hs']
  · have hs' : ¬ (s = "resolved" ∨ s = "closed") := by
      intro h
      apply hv
      rcases h with h | h <;> simp [h, Complaint.VALID_STATUSES]
    simp only [hs', and_false, if_false]
    split
    · next h => exact absurd h hv
    · rfl

/-- C1.  Resolution timestamp idempotence: a single `update_status` call sets
`resolved_at := now` exactly when the complaint has `resolved_at` NULL and the
new status is resolved or closed, and otherwise leaves `resolved_at` exactly
as it was (in particular it never clears it); and once `resolved_at` is set,
any later sequence of `update_status` calls — with any statuses, valid or
not, including back to pending or in_progress — leaves it untouched. -/
theorem C1_resolved_at_set_once :
    (∀ (c : Complaint) (s : String) (now : Nat),
      ((Complaint.update_status c s now).2).resolved_at =
        if c.resolved_at = none ∧ (s = "resolved" ∨ s = "closed") then some now
        else c.resolved_at) ∧
    (∀ (c : Complaint) (us : List (String × Nat)) (t : Nat),
      c.resolved_at = some t → (apply_status_updates c us).resolved_at = some t) := by
  constructor
  · exact update_status_resolved_at
  · intro c us
    induction us generalizing c with
    | nil => intro t h; simpa [apply_status_updates] using h
    | cons u rest ih =>
      intro t h
      have step : ((Complaint.update_status c u.1 u.2).2).resolved_at = some t := by
        rw [update_status_resolved_at]
        simp [h]
      have : apply_status_updates c (u :: rest) =
          apply_status_updates (Complaint.update_status c u.1 u.2).2 rest := by
        simp [apply_status_updates]
      rw [this]
      exact ih _ t step

/-- C1 witness: a complaint whose `resolved_at` is already set keeps it
through a later sequence of status updates (back to pending, then closed). -/
theorem C1_resolved_at_set_once_witness :
    (apply_status_updates
      { id := 1, ticket_number := "TKT-2024-ABC123", user_id := 7,
        category := "library", title := "Lost library card",
        description := "It stopped working at the gate scanner yesterday.",
        status := "resolved", priority := "medium", assigned_to := none,
        attachments := some [], admin_notes := none, created_at := 100,
        updated_at := 100, resolved_at := some 3 }
      [("pending", 50), ("closed", 90)]).resolved_at = some 3 :=
  C1_resolved_at_set_once.2 _ _ 3 rfl

/-! ## Pagination helpers (`app/utils/helpers.py`) -/

/-- The slice of data plus metadata returned by Flask-SQLAlchemy's
`query.paginate(page=..., per_page=..., error_out=False)`. -/
structure Pagination (α : Type) where
  page : Nat
  per_page : Nat
  total : Nat
  items : List α
deriving Repr, DecidableEq

/-- `paginate_query` from `app/utils/helpers.py`: clamps `page` to at least 1
and `per_page` into `[1, max_per_page]`, then returns the page slice (with
`error_out=False`, an out-of-range page simply yields no items). -/
def paginate_query {α : Type} (l : List α) (page per_page max_per_page : Int) :
    Pagination α :=
  let page := max 1 page
  let per_page := min (max 1 per_page) max_per_page
  let pg := page.toNat
  let pp := per_page.toNat
  { page := pg, per_page := pp, total := l.length,
    items := (l.drop ((pg - 1) * pp)).take pp }

/-! ## C6: pagination bounds -/

/-- C6.  Pagination bounds: every call of `paginate_query` with the
application's `max_per_page` default of 100 uses an effective `per_page`
inside `[1, 100]` whatever integer was requested (1000 is clamped to 100 and
0 to 1), and every requested `page` below 1 is clamped to 1. -/
theorem C6_pagination_bounds :
    (∀ (l : List Complaint) (page per_page : Int),
      1 ≤ (paginate_query l page per_page 100).per_page ∧
      (paginate_query l page per_page 100).per_page ≤ 100) ∧
    (∀ (l : List Complaint) (page : Int),
      (paginate_query l page 1000 100).per_page = 100 ∧
      (paginate_query l page 0 100).per_page = 1) ∧
    (∀ (l : List Complaint) (page per_page : Int), page < 1 →
      (paginate_query l page per_page 100).page = 1) := by
  refine ⟨fun l page per_page => ⟨?_, ?_⟩, fun l page => ⟨rfl, rfl⟩,
    fun l page per_page h => ?_⟩
  · simp only [paginate_query]
    omega
  · simp only [paginate_query]
    omega
  · simp only [paginate_query]
    omega

/-- C6 witness: a page request below 1 with an oversized `per_page` is
clamped to page 1 and per_page 100. -/
theorem C6_pagination_bounds_witness :
    (1 ≤ (paginate_query ([] : List Complaint) (-5) 1000 100).per_page ∧
      (paginate_query ([] : List Complaint) (-5) 1000 100).per_page ≤ 100) ∧
    (paginate_query ([] : List Complaint) (-5) 1000 100).page = 1 :=
  ⟨C6_pagination_bounds.1 [] (-5) 1000,
   C6_pagination_bounds.2.2 [] (-5) 1000 (by decide)⟩

/-! ## Student complaint listing (`app/routes/student.py`, `get_my_complaints`) -/

/-- `sanitize_string` from `app/utils/helpers.py` on a present value: strip
whitespace, then truncate to `maxLen` characters. -/
def sanitize_string (s : String) (maxLen : Nat) : String :=
  let t := pyStrip s
  if t.length > maxLen then ⟨t.toList.take maxLen⟩ else t

/-- `sanitize_string` lifted over a possibly-absent value (`None` in, `None`
out). -/
def sanitizeOpt (s : Option String) (maxLen : Nat) : Option String :=
  s.map (fun v => sanitize_string v maxLen)

/-- `if status and status in Complaint.VALID_STATUSES: query.filter_by(...)`:
an absent, empty, or out-of-enum status filter is skipped. -/
def applyStatusFilter (s? : Option String) (l : List Complaint) : List Complaint :=
  match s? with
  | none => l
  | some s =>
    if s ≠ "" && Complaint.VALID_STATUSES.contains s then
      l.filter (fun c => c.status == s)
    else l

/-- The category filter, same skip-on-invalid shape as the status filter. -/
def applyCategoryFilter (s? : Option String) (l : List Complaint) : List Complaint :=
  match s? with
  | none => l
  | some s =>
    if s ≠ "" && Complaint.VALID_CATEGORIES.contains s then
      l.filter (fun c => c.category == s)
    else l

/-- The priority filter, same skip-on-invalid shape as the status filter. -/
def applyPriorityFilter (s? : Option String) (l : List Complaint) : List Complaint :=
  match s? with
  | none => l
  | some s =>
    if s ≠ "" && Complaint.VALID_PRIORITIES.contains s then
      l.filter (fun c => c.priority == s)
    else l

/-- The stripped search term filtered with `ilike` over title, description
and ticket number (`db.or_`). -/
def applySearch (search : String) (l : List Complaint) : List Complaint :=
  let s := pyStrip search
  if s = "" then l
  else
    l.filter (fun c =>
      ilikeContains c.title s || ilikeContains c.description s ||
        ilikeContains c.ticket_number s)

/-- Ascending comparison on one sort column of the complaints table. -/
def complaintFieldLe (field : String) (a b : Complaint) : Bool :=
  if field == "updated_at" then a.updated_at ≤ b.updated_at
  else if field == "status" then strLeB a.status b.status
  else if field == "priority" then strLeB a.priority b.priority
  else if field == "category" then strLeB a.category b.category
  else a.created_at ≤ b.created_at

/-- `order_by(sort_column.asc() / .desc())` on a validated sort field. -/
def sortComplaints (field sort_order : String) (l : List Complaint) : List Complaint :=
  if sort_order == "asc" then sortLe (complaintFieldLe field) l
  else sortLe (fun a b => complaintFieldLe field b a) l

/-- Query parameters accepted by the student listing; `none` is an absent
query-string key. -/
structure StudentListParams where
  status : Option String
  category : Option String
  priority : Option String
  search : Option String
  sort_by : Option String
  sort_order : Option String
  page : Int
  per_page : Int
deriving Repr, DecidableEq

/-- Valid sort fields of the student listing. -/
def studentSortFields : List String :=
  ["created_at", "updated_at", "status", "priority"]

/-- `get_my_complaints` (`app/routes/student.py`): scope to the requesting
student's `user_id`, apply the optional status/category/priority filters, the
search, the validated sort (default `created_at` descending) and the
pagination; returns the page of complaints serialized in the response. -/
def get_my_complaints (db : List Complaint) (uid : Nat) (p : StudentListParams) :
    List Complaint :=
  let q := db.filter (fun c => c.user_id == uid)
  let q := applyStatusFilter p.status q
  let q := applyCategoryFilter p.category q
  let q := applyPriorityFilter p.priority q
  let q := applySearch (p.search.getD "") q
  let sb := p.sort_by.getD "created_at"
  let sb := if studentSortFields.contains sb then sb else "created_at"
  let q := sortComplaints sb (p.sort_order.getD "desc") q
  (paginate_query q p.page p.per_page 100).items

theorem mem_applyStatusFilter {s? : Option String} {l : List Complaint}
    {c : Complaint} (h : c ∈ applyStatusFilter s? l) : c ∈ l := by
  cases s? with
  | none => exact h
  | some s =>
    simp only [applyStatusFilter] at h
    split at h
    · exact List.mem_of_mem_filter h
    · exact h

theorem mem_applyCategoryFilter {s? : Option String} {l : List Complaint}
    {c : Complaint} (h : c ∈ applyCategoryFilter s? l) : c ∈ l := by
  cases s? with
  | none => exact h
  | some s =>
    simp only [applyCategoryFilter] at h
    split at h
    · exact List.mem_of_mem_filter h
    · exact h

theorem mem_applyPriorityFilter {s? : Option String} {l : List Complaint}
    {c : Complaint} (h : c ∈ applyPriorityFilter s? l) : c ∈ l := by
  cases s? with
  | none => exact h
  | some s =>
    simp only [applyPriorityFilter] at h
    split at h
    · exact List.mem_of_mem_filter h
    · exact h

theorem mem_applySearch {search : String} {l : List Complaint} {c : Complaint}
    (h : c ∈ applySearch search l) : c ∈ l := by
  simp only [applySearch] at h
  split at h
  · exact h
  · exact List.mem_of_mem_filter h

theorem mem_sortComplaints {field sort_order : String} {l : List Complaint}
    {c : Complaint} (h : c ∈ sortComplaints field sort_order l) : c ∈ l := by
  simp only [sortComplaints] at h
  split at h
  · exact (mem_sortLe _ _ _).mp h
  · exact (mem_sortLe _ _ _).mp h

/-! ## C2: ownership isolation of the student listing -/

/-- C2.  Ownership isolation: whatever combination of filter, search, sort
and pagination parameters a student sends (including none), every complaint
in the page returned by `get_my_complaints` belongs to the requesting
student. -/
theorem C2_ownership_isolation (db : List Complaint) (uid : Nat)
    (p : StudentListParams) (c : Complaint)
    (h : c ∈ get_my_complaints db uid p) : c.user_id = uid := by
  simp only [get_my_complaints, paginate_query] at h
  have h1 := List.drop_subset _ _ (List.take_subset _ _ h)
  have h2 := mem_applyStatusFilter (mem_applyCategoryFilter
    (mem_applyPriorityFilter (mem_applySearch (mem_sortComplaints h1))))
  have := List.mem_filter.mp h2
  simpa using this.2

/-- A concrete complaint owned by student 7, reused by concrete evaluations
below. -/
def exComplaint : Complaint :=
  { id := 1, ticket_number := "TKT-2024-ABC123", user_id := 7,
    category := "library", title := "Lost library card",
    description := "It stopped working at the gate scanner yesterday.",
    status := "pending", priority := "medium", assigned_to := none,
    attachments := some [], admin_notes := none, created_at := 100,
    updated_at := 100, resolved_at := none }

/-- A student listing request with every parameter absent. -/
def exNoParams : StudentListParams :=
  { status := none, category := none, priority := none, search := none,
    sort_by := none, sort_order := none, page := 1, per_page := 10 }

/-- C2 witness: with no filters at all, a concrete student's listing returns
their complaint, and the theorem yields that its owner is that student. -/
theorem C2_ownership_isolation_witness :
    exComplaint ∈ get_my_complaints [exComplaint] 7 exNoParams ∧
      exComplaint.user_id = 7 :=
  ⟨by decide, C2_ownership_isolation [exComplaint] 7 exNoParams exComplaint (by decide)⟩

/-! ## Admin complaint listing (`app/routes/admin.py`, `get_all_complaints`) -/

/-- Seconds in a calendar day; `created_at` day numbers are
`created_at / secondsPerDay`. -/
def secondsPerDay : Nat := 86400

/-- Query parameters of the admin listing.  A date parameter is `none` when
absent and `some none` when present but malformed (`datetime.strptime`
raises `ValueError` and the handler ignores the filter); a well-formed date
is `some (some d)` with `d` the parsed calendar day number. -/
structure AdminListParams where
  status : Option String
  category : Option String
  priority : Option String
  assigned_to : Option Int
  unassigned : Option String
  start_date : Option (Option Nat)
  end_date : Option (Option Nat)
  search : Option String
  sort_by : Option String
  sort_order : Option String
  page : Int
  per_page : Int
deriving Repr, DecidableEq

/-- `if assigned_to: query.filter_by(assigned_to=assigned_to)` — the Python
truthiness test also skips the filter for id 0. -/
def applyAssignedFilter (a? : Option Int) (l : List Complaint) : List Complaint :=
  match a? with
  | none => l
  | some a => if a ≠ 0 then l.filter (fun c => c.assigned_to == some a.toNat) else l

/-- `unassigned=true` keeps only complaints with `assigned_to` NULL. -/
def applyUnassignedFilter (u? : Option String) (l : List Complaint) : List Complaint :=
  if pyLower (u?.getD "") == "true" then l.filter (fun c => c.assigned_to.isNone) else l

/-- `created_at >= start` where `start` is midnight of the parsed day; a
malformed date (`some none`) is silently skipped. -/
def applyStartDateFilter (d? : Option (Option Nat)) (l : List Complaint) :
    List Complaint :=
  match d? with
  | none => l
  | some none => l
  | some (some d) => l.filter (fun c => decide (d * secondsPerDay ≤ c.created_at))

/-- `created_at <= end.replace(hour=23, minute=59, second=59)`; a malformed
date is silently skipped. -/
def applyEndDateFilter (d? : Option (Option Nat)) (l : List Complaint) :
    List Complaint :=
  match d? with
  | none => l
  | some none => l
  | some (some d) =>
    l.filter (fun c => decide (c.created_at ≤ d * secondsPerDay + 86399))

/-- Valid sort fields of the admin listing. -/
def adminSortFields : List String :=
  ["created_at", "updated_at", "status", "priority", "category"]

/-- `get_all_complaints` (`app/routes/admin.py`): unscoped across all
complaints; optional enum filters (skipped when invalid), assignment and
unassignment filters, an inclusive day-granularity date range, the search,
the validated sort and the pagination. -/
def get_all_complaints (db : List Complaint) (p : AdminListParams) :
    List Complaint :=
  let q := db
  let q := applyStatusFilter p.status q
  let q := applyCategoryFilter p.category q
  let q := applyPriorityFilter p.priority q
  let q := applyAssignedFilter p.assigned_to q
  let q := applyUnassignedFilter p.unassigned q
  let q := applyStartDateFilter p.start_date q
  let q := applyEndDateFilter p.end_date q
  let q := applySearch (p.search.getD "") q
  let sb := p.sort_by.getD "created_at"
  let sb := if adminSortFields.contains sb then sb else "created_at"
  let q := sortComplaints sb (p.sort_order.getD "desc") q
  (paginate_query q p.page p.per_page 100).items

/-! ## Admin status update (`app/routes/admin.py`, `update_complaint_status`) -/

/-- Request body of the status-update route; `status`/`comment` are `none`
when the JSON key is missing. -/
structure StatusUpdateBody where
  status : Option String
  comment : Option String
deriving Repr, DecidableEq

/-- Observable outcome of `update_complaint_status`: HTTP status code, the
complaint row after the request, the `Response` rows created, and the
notifications created. -/
structure StatusUpdateResult where
  code : Nat
  complaint : Complaint
  responses : List Response
  notifications : List Notification
deriving Repr, DecidableEq

/-- `update_complaint_status` (`app/routes/admin.py`): requires a `status`
key (else 400), lower-cases and sanitizes it, rejects a value outside
`VALID_STATUSES` with 400 and no mutation, otherwise applies
`Complaint.update_status`, records the optional comment as a visible
response summarizing the old→new transition, and notifies the owning
student. -/
def update_complaint_status (c : Complaint) (admin_id : Nat)
    (body : Option StatusUpdateBody) (now : Nat) : StatusUpdateResult :=
  match body with
  | none => { code := 400, complaint := c, responses := [], notifications := [] }
  | some data =>
    match data.status with
    | none => { code := 400, complaint := c, responses := [], notifications := [] }
    | some raw =>
      let new_status := sanitize_string (pyLower raw) 20
      if Complaint.VALID_STATUSES.contains new_status then
        let old_status := c.status
        let c' := (Complaint.update_status c new_status now).2
        let comment := sanitizeOpt data.comment 2000
        let responses :=
          match comment with
          | none => []
          | some cm =>
            if cm ≠ "" then
              [{ id := 0, complaint_id := c.id, user_id := admin_id,
                 message := "Status changed from '" ++ old_status ++ "' to '"
                   ++ new_status ++ "'. " ++ cm,
                 is_internal := false, attachments := some [],
                 created_at := now }]
            else []
        { code := 200, complaint := c', responses := responses,
          notifications :=
            [{ user_id := c.user_id, notification_type := "status_changed",
               title := "Complaint Status Updated",
               message := "Your complaint \x22" ++ c.title
                 ++ "\x22 status changed to " ++ pyUpper new_status ++ ".",
               complaint_id := some c.id }] }
      else
        { code := 400, complaint := c, responses := [], notifications := [] }

/-! ## C7: read/write validation asymmetry -/

theorem applyStatusFilter_invalid {s : String}
    (h : s ∉ Complaint.VALID_STATUSES) (l : List Complaint) :
    applyStatusFilter (some s) l = l := by
  simp only [applyStatusFilter]
  simp [h]

theorem applyCategoryFilter_invalid {s : String}
    (h : s ∉ Complaint.VALID_CATEGORIES) (l : List Complaint) :
    applyCategoryFilter (some s) l = l := by
  simp only [applyCategoryFilter]
  simp [h]

theorem applyPriorityFilter_invalid {s : String}
    (h : s ∉ Complaint.VALID_PRIORITIES) (l : List Complaint) :
    applyPriorityFilter (some s) l = l := by
  simp only [applyPriorityFilter]
  simp [h]

/-- C7.  Read/write validation asymmetry: on the admin listing, a status,
category or priority filter value outside its enum is silently ignored — the
result is identical to the same request without that filter, with no error —
while on the status-update write route a status whose sanitized lower-cased
value is outside the enum yields a 400 with the complaint unchanged and no
response or notification created. -/
theorem C7_read_write_asymmetry :
    (∀ (db : List Complaint) (p : AdminListParams) (s : String),
      s ∉ Complaint.VALID_STATUSES →
      get_all_complaints db { p with status := some s } =
        get_all_complaints db { p with status := none }) ∧
    (∀ (db : List Complaint) (p : AdminListParams) (s : String),
      s ∉ Complaint.VALID_CATEGORIES →
      get_all_complaints db { p with category := some s } =
        get_all_complaints db { p with category := none }) ∧
    (∀ (db : List Complaint) (p : AdminListParams) (s : String),
      s ∉ Complaint.VALID_PRIORITIES →
      get_all_complaints db { p with priority := some s } =
        get_all_complaints db { p with priority := none }) ∧
    (∀ (c : Complaint) (admin_id : Nat) (raw : String) (comment : Option String)
      (now : Nat),
      sanitize_string (pyLower raw) 20 ∉ Complaint.VALID_STATUSES →
      update_complaint_status c admin_id (some ⟨some raw, comment⟩) now =
        { code := 400, complaint := c, responses := [], notifications := [] }) := by
  refine ⟨fun db p s h => ?_, fun db p s h => ?_, fun db p s h => ?_,
    fun c admin_id raw comment now h => ?_⟩
  · simp only [get_all_complaints, applyStatusFilter_invalid h]
    rfl
  · simp only [get_all_complaints, applyCategoryFilter_invalid h]
    rfl
  · simp only [get_all_complaints, applyPriorityFilter_invalid h]
    rfl
  · simp only [update_complaint_status]
    simp [h]

/-- An admin listing request with every parameter absent. -/
def exAdminParams : AdminListParams :=
  { status := none, category := none, priority := none, assigned_to := none,
    unassigned := none, start_date := none, end_date := none, search := none,
    sort_by := none, sort_order := none, page := 1, per_page := 10 }

/-- C7 witness: the out-of-enum filter value "bogus" changes nothing on the
read path, while the out-of-enum status "bogus" on the write path yields 400
with the complaint untouched. -/
theorem C7_read_write_asymmetry_witness :
    get_all_complaints [exComplaint] { exAdminParams with status := some "bogus" } =
      get_all_complaints [exComplaint] { exAdminParams with status := none } ∧
    update_complaint_status exComplaint 2 (some ⟨some "bogus", none⟩) 0 =
      { code := 400, complaint := exComplaint, responses := [],
        notifications := [] } :=
  ⟨C7_read_write_asymmetry.1 [exComplaint] exAdminParams "bogus" (by decide),
   C7_read_write_asymmetry.2.2.2 exComplaint 2 "bogus" none 0 (by decide)⟩

/-! ## Student complaint detail and ticket tracking (`app/routes/student.py`) -/

/-- `Response.created_at.asc()` ordering used both by the `responses`
relationship and the detail queries. -/
def sortResponsesByCreated (l : List Response) : List Response :=
  sortLe (fun a b => decide (a.created_at ≤ b.created_at)) l

/-- `Complaint.to_dict(include_responses=True)` (`app/models/complaint.py`
lines 288–292): serializes `self.responses.all()`, i.e. every response of
the complaint with no `is_internal` filter. -/
def toDictResponses (c : Complaint) (responses_db : List Response) :
    List Response :=
  sortResponsesByCreated (responses_db.filter (fun r => r.complaint_id == c.id))

/-- The responses serialized by the student complaint-detail route
(`get_complaint_details` in `app/routes/student.py`): filtered by
`is_internal=False` before serialization.  Returns the HTTP code and the
serialized responses. -/
def student_get_complaint_details (complaints : List Complaint)
    (responses_db : List Response) (uid : Nat) (complaint_id : Nat) :
    Nat × List Response :=
  match complaints.find? (fun c => c.id == complaint_id) with
  | none => (404, [])
  | some c =>
    if c.user_id ≠ uid then (403, [])
    else
      (200, sortResponsesByCreated (responses_db.filter
        (fun r => r.complaint_id == complaint_id && r.is_internal == false)))

/-- `track_complaint_by_ticket` (`app/routes/student.py` lines 407–451):
looks the complaint up by upper-cased ticket number, checks ownership, and
serializes it with `to_dict(include_responses=True)`. -/
def track_complaint_by_ticket (complaints : List Complaint)
    (responses_db : List Response) (uid : Nat) (ticket_number : String) :
    Nat × List Response :=
  match complaints.find? (fun c => c.ticket_number == pyUpper ticket_number) with
  | none => (404, [])
  | some c =>
    if c.user_id ≠ uid then (403, [])
    else (200, toDictResponses c responses_db)

/-! ## C3: internal-note visibility -/

/-- An internal staff note on complaint 1. -/
def exInternalNote : Response :=
  { id := 1, complaint_id := 1, user_id := 2,
    message := "Internal note: student already got a replacement card.",
    is_internal := true, attachments := some [], created_at := 110 }

/-- C3.  Internal-note visibility fails on the code: on a concrete database
holding complaint 1 (owned by student 7) with a single `is_internal=true`
response, the student-facing track-by-ticket-number route succeeds (200) and
its serialized payload contains that internal response — because
`to_dict(include_responses=True)` serializes `self.responses.all()`
unfiltered — while the student complaint-detail route for the very same data
correctly returns no responses. -/
theorem C3_internal_note_leak :
    track_complaint_by_ticket [exComplaint] [exInternalNote] 7 "TKT-2024-ABC123"
      = (200, [exInternalNote]) ∧
    exInternalNote.is_internal = true ∧
    student_get_complaint_details [exComplaint] [exInternalNote] 7 1 = (200, []) := by
  refine ⟨by decide, rfl, by decide⟩

/-! ## Admin add-response (`app/routes/admin.py`, `add_admin_response`) -/

/-- Request body of the admin add-response route; `is_internal` defaults to
false via `data.get('is_internal', False)`. -/
structure AdminResponseBody where
  message : Option String
  is_internal : Bool
deriving Repr, DecidableEq

/-- Observable outcome of `add_admin_response`. -/
structure AdminResponseResult where
  code : Nat
  complaint : Complaint
  responses : List Response
  notifications : List Notification
deriving Repr, DecidableEq

/-- `add_admin_response` (`app/routes/admin.py` lines 425–502): validates the
message (400 when missing or shorter than 2 characters), creates the
response with the requested `is_internal` flag, switches a pending complaint
to in_progress — the guard tests only `complaint.status == 'pending'`, not
the flag — and notifies the student only for a non-internal response. -/
def add_admin_response (c : Complaint) (admin_id : Nat)
    (body : Option AdminResponseBody) (now : Nat) : AdminResponseResult :=
  match body with
  | none => { code := 400, complaint := c, responses := [], notifications := [] }
  | some data =>
    match sanitizeOpt data.message 5000 with
    | none => { code := 400, complaint := c, responses := [], notifications := [] }
    | some m =>
      if m.length < 2 then
        { code := 400, complaint := c, responses := [], notifications := [] }
      else
        let c' := if c.status == "pending" then { c with status := "in_progress" }
          else c
        { code := 201, complaint := c',
          responses :=
            [{ id := 0, complaint_id := c.id, user_id := admin_id, message := m,
               is_internal := data.is_internal, attachments := some [],
               created_at := now }],
          notifications :=
            if data.is_internal then []
            else
              [{ user_id := c.user_id, notification_type := "new_response",
                 title := "New Response on Your Complaint",
                 message := "Admin responded to your complaint \x22" ++ c.title
                   ++ "\x22.",
                 complaint_id := some c.id }] }

/-! ## C4: automatic pending → in_progress transition -/

/-- C4 counterexample: the claim says an internal response is not the
trigger, but on a concrete pending complaint an admin response posted with
`is_internal=true` succeeds and still flips the status to in_progress. -/
theorem C4_internal_response_also_triggers :
    (add_admin_response exComplaint 2
        (some { message := some "Student already got a replacement card.",
                is_internal := true }) 5).code = 201 ∧
    exComplaint.status = "pending" ∧
    (add_admin_response exComplaint 2
        (some { message := some "Student already got a replacement card.",
                is_internal := true }) 5).complaint.status = "in_progress" := by
  refine ⟨by decide, rfl, by decide⟩

/-- C4 (amended).  Every successful admin add-response — internal or not —
on a pending complaint flips its status to in_progress; a complaint whose
status is not pending keeps its status unchanged by the operation, and a
rejected request (400) never touches the complaint. -/
theorem C4_pending_transition (c : Complaint) (admin_id : Nat)
    (body : Option AdminResponseBody) (now : Nat) :
    ((add_admin_response c admin_id body now).code = 201 → c.status = "pending" →
      (add_admin_response c admin_id body now).complaint.status = "in_progress") ∧
    (c.status ≠ "pending" →
      (add_admin_response c admin_id body now).complaint = c) ∧
    ((add_admin_response c admin_id body now).code ≠ 201 →
      (add_admin_response c admin_id body now).complaint = c) := by
  unfold add_admin_response
  cases body with
  | none => simp
  | some data =>
    cases hm : sanitizeOpt data.message 5000 with
    | none => simp [hm]
    | some m =>
      by_cases hl : m.length < 2
      · simp [hm, hl]
      · by_cases hp : c.status = "pending"
        · simp [hm, hl, hp]
        · simp [hm, hl, hp]

/-- C4 witness: a non-internal admin response moves a concrete pending
complaint to in_progress, and leaves a concrete resolved complaint's row
untouched. -/
theorem C4_pending_transition_witness :
    (add_admin_response exComplaint 2
        (some { message := some "We are on it.", is_internal := false })
        5).complaint.status = "in_progress" ∧
    (add_admin_response { exComplaint with status := "resolved" } 2
        (some { message := some "We are on it.", is_internal := false })
        5).complaint = { exComplaint with status := "resolved" } :=
  ⟨(C4_pending_transition exComplaint 2
      (some { message := some "We are on it.", is_internal := false }) 5).1
      (by decide) rfl,
   (C4_pending_transition { exComplaint with status := "resolved" } 2
      (some { message := some "We are on it.", is_internal := false }) 5).2.1
      (by decide)⟩

/-! ## Student add-response (`app/routes/student.py`, `add_response_to_complaint`) -/

/-- `add_response_to_complaint` (`app/routes/student.py` lines 329–404) from
the point where the complaint row has been loaded: ownership check (403),
closed/rejected check (400, before the body is even read), body and message
validation (400), then creation of a single non-internal response (201).
The request body is `none` when no JSON was sent, `some none` when the JSON
has no `message` key.  Returns the HTTP code and the `Response` rows
created; the handler never mutates the complaint row itself. -/
def add_response_to_complaint (c : Complaint) (uid : Nat)
    (body : Option (Option String)) (now : Nat) : Nat × List Response :=
  if c.user_id ≠ uid then (403, [])
  else if c.status == "closed" || c.status == "rejected" then (400, [])
  else
    match body with
    | none => (400, [])
    | some message? =>
      match sanitizeOpt message? 5000 with
      | none => (400, [])
      | some m =>
        if m.length < 5 then (400, [])
        else
          (201, [{ id := 0, complaint_id := c.id, user_id := uid, message := m,
                   is_internal := false, attachments := some [],
                   created_at := now }])

/-! ## C10: closed/rejected complaints are read-only for students -/

/-- C10.  For every student add-response call on a complaint the student
owns, if the complaint is closed or rejected the handler answers 400 and
creates no `Response` row, whatever the request body was — the check runs
before the body is read, so nothing is mutated. -/
theorem C10_closed_rejected_read_only (c : Complaint) (uid : Nat)
    (body : Option (Option String)) (now : Nat)
    (hown : c.user_id = uid)
    (hst : c.status = "closed" ∨ c.status = "rejected") :
    add_response_to_complaint c uid body now = (400, []) := by
  unfold add_response_to_complaint
  rcases hst with h | h <;> simp [hown, h]

/-- C10 witness: the owner of a concrete closed complaint gets 400 and no
response row even with a perfectly valid message. -/
theorem C10_closed_rejected_read_only_witness :
    add_response_to_complaint { exComplaint with status := "closed" } 7
      (some (some "Please reopen this complaint, it is still happening."))
      200 = (400, []) :=
  C10_closed_rejected_read_only { exComplaint with status := "closed" } 7
    (some (some "Please reopen this complaint, it is still happening."))
    200 (by decide) (Or.inl (by decide))

/-! ## Complaint constructor (`Complaint.__init__`, `app/models/complaint.py`) -/

/-- The keyword arguments `Complaint(**kwargs)` is called with; `none` stands
for an attribute that was not passed (and is therefore `None` when
`__init__` inspects it). -/
structure ComplaintKwargs where
  ticket_number : Option String
  user_id : Nat
  category : Option String
  title : String
  description : String
  status : Option String
  priority : Option String
  assigned_to : Option Nat
  attachments : Option (List String)
  admin_notes : Option String
deriving Repr, DecidableEq

/-- `Complaint.__init__` (`app/models/complaint.py` lines 162–184): generate
the ticket number when absent or empty (Python falsy test), silently replace
an out-of-enum category/status/priority — including the `None` of an
unpassed argument — by `'other'`/`'pending'`/`'medium'`, and replace a
`None` attachments value by the empty list.  `generated` is the value
`generate_ticket_number()` returns for this call; `id` and the timestamps
are filled by the database on flush and are passed here explicitly. -/
def complaintInit (kw : ComplaintKwargs) (generated : String) (now : Nat) :
    Complaint :=
  let ticket :=
    match kw.ticket_number with
    | none => generated
    | some t => if t = "" then generated else t
  let category :=
    match kw.category with
    | none => "other"
    | some cat => if Complaint.VALID_CATEGORIES.contains cat then cat else "other"
  let status :=
    match kw.status with
    | none => "pending"
    | some st => if Complaint.VALID_STATUSES.contains st then st else "pending"
  let priority :=
    match kw.priority with
    | none => "medium"
    | some pr => if Complaint.VALID_PRIORITIES.contains pr then pr else "medium"
  { id := 0, ticket_number := ticket, user_id := kw.user_id,
    category := category, title := kw.title, description := kw.description,
    status := status, priority := priority, assigned_to := kw.assigned_to,
    attachments := some (kw.attachments.getD []),
    admin_notes := kw.admin_notes, created_at := now, updated_at := now,
    resolved_at := none }

/-! ## C9: constructor normalization invariant -/

/-- C9.  Immediately after construction every complaint has a category in
the 19-value enum, a status in the 5-value enum, a priority in the 4-value
enum and a non-null attachments list; an out-of-enum category, status or
priority (including an absent one) is silently replaced by `'other'`,
`'pending'` and `'medium'` respectively rather than rejected. -/
theorem C9_constructor_normalization (kw : ComplaintKwargs) (generated : String)
    (now : Nat) :
    (complaintInit kw generated now).category ∈ Complaint.VALID_CATEGORIES ∧
    (complaintInit kw generated now).status ∈ Complaint.VALID_STATUSES ∧
    (complaintInit kw generated now).priority ∈ Complaint.VALID_PRIORITIES ∧
    (complaintInit kw generated now).attachments ≠ none ∧
    (∀ cat, kw.category = some cat → cat ∉ Complaint.VALID_CATEGORIES →
      (complaintInit kw generated now).category = "other") ∧
    (∀ st, kw.status = some st → st ∉ Complaint.VALID_STATUSES →
      (complaintInit kw generated now).status = "pending") ∧
    (∀ pr, kw.priority = some pr → pr ∉ Complaint.VALID_PRIORITIES →
      (complaintInit kw generated now).priority = "medium") := by
  refine ⟨?_, ?_, ?_, by simp [complaintInit], ?_, ?_, ?_⟩
  · simp only [complaintInit]
    cases kw.category with
    | none => decide
    | some cat =>
      dsimp only
      cases hb : Complaint.VALID_CATEGORIES.contains cat with
      | false => simp [Complaint.VALID_CATEGORIES]
      | true => simpa using hb
  · simp only [complaintInit]
    cases kw.status with
    | none => decide
    | some st =>
      dsimp only
      cases hb : Complaint.VALID_STATUSES.contains st with
      | false => simp [Complaint.VALID_STATUSES]
      | true => simpa using hb
  · simp only [complaintInit]
    cases kw.priority with
    | none => decide
    | some pr =>
      dsimp only
      cases hb : Complaint.VALID_PRIORITIES.contains pr with
      | false => simp [Complaint.VALID_PRIORITIES]
      | true => simpa using hb
  · intro cat hc hni
    simp [complaintInit, hc, hni]
  · intro st hc hni
    simp [complaintInit, hc, hni]
  · intro pr hc hni
    simp [complaintInit, hc, hni]

/-- C9 witness: a constructor call with out-of-enum category, status and
priority yields `'other'`/`'pending'`/`'medium'` and an empty (non-null)
attachments list. -/
theorem C9_constructor_normalization_witness :
    (complaintInit
      { ticket_number := none, user_id := 7, category := some "wifi",
        title := "No network", description := "The hostel wifi is down.",
        status := some "open", priority := some "urgent!", assigned_to := none,
        attachments := none, admin_notes := none } "TKT-2024-XYZ789" 50).category
      = "other" ∧
    (complaintInit
      { ticket_number := none, user_id := 7, category := some "wifi",
        title := "No network", description := "The hostel wifi is down.",
        status := some "open", priority := some "urgent!", assigned_to := none,
        attachments := none, admin_notes := none } "TKT-2024-XYZ789" 50).status
      = "pending" ∧
    (complaintInit
      { ticket_number := none, user_id := 7, category := some "wifi",
        title := "No network", description := "The hostel wifi is down.",
        status := some "open", priority := some "urgent!", assigned_to := none,
        attachments := none, admin_notes := none } "TKT-2024-XYZ789" 50).priority
      = "medium" :=
  ⟨(C9_constructor_normalization _ "TKT-2024-XYZ789" 50).2.2.2.2.1 "wifi" rfl
      (by decide),
   (C9_constructor_normalization _ "TKT-2024-XYZ789" 50).2.2.2.2.2.1 "open" rfl
      (by decide),
   (C9_constructor_normalization _ "TKT-2024-XYZ789" 50).2.2.2.2.2.2 "urgent!" rfl
      (by decide)⟩

/-! ## Ticket number generation (`generate_ticket_number`,
`app/models/complaint.py` lines 186–197) -/

/-- Decimal digit characters of `n`, most significant first; models the
decimal rendering performed by the f-string `f"TKT-{year}-{random_part}"`. -/
def natDigits (n : Nat) : List Char :=
  if h : n < 10 then [Nat.digitChar n]
  else natDigits (n / 10) ++ [Nat.digitChar (n % 10)]
decreasing_by exact Nat.div_lt_self (by omega) (by omega)

/-- Decimal string of a natural number. -/
def natDecimalRepr (n : Nat) : String := ⟨natDigits n⟩

/-- `Complaint.generate_ticket_number`: `f"TKT-{year}-{random_part}"` where
`year = datetime.utcnow().year` and `random_part` is produced by
`random.choices(string.ascii_uppercase + string.digits, k=6)` — modelled
here as an arbitrary argument, constrained in the theorem to the length and
alphabet `random.choices` guarantees. -/
def generate_ticket_number (year : Nat) (random_part : String) : String :=
  "TKT-" ++ natDecimalRepr year ++ "-" ++ random_part

/-- Does a character list match the anchored regex
`TKT-\x5cd{4}-[A-Z0-9]{6}`? -/
def ticketFormatChars : List Char → Bool
  | 'T' :: 'K' :: 'T' :: '-' :: rest =>
    (rest.take 4).length == 4 && (rest.take 4).all Char.isDigit &&
      (match rest.drop 4 with
       | '-' :: tail =>
         tail.length == 6 && tail.all (fun c => c.isUpper || c.isDigit)
       | _ => false)
  | _ => false

/-- Does a string match `TKT-\x5cd{4}-[A-Z0-9]{6}`? -/
def ticketFormatOk (s : String) : Bool := ticketFormatChars s.toList

/-- The `unique=True` constraint on the `ticket_number` column: an insert of
a complaint whose ticket number already exists is rejected by the database
(`IntegrityError`, transaction rolled back to the previous state). -/
def insert_complaint (db : List Complaint) (c : Complaint) :
    Option (List Complaint) :=
  if db.any (fun x => x.ticket_number == c.ticket_number) then none
  else some (db ++ [c])

/-- Global uniqueness of ticket numbers across a complaints table. -/
def ticketsUnique (db : List Complaint) : Prop :=
  (db.map Complaint.ticket_number).Nodup

theorem digitChar_isDigit (m : Nat) (h : m < 10) :
    (Nat.digitChar m).isDigit = true := by
  interval_cases m <;> decide

theorem natDigits_all_isDigit (n : Nat) :
    (natDigits n).all Char.isDigit = true := by
  induction n using Nat.strong_induction_on with
  | _ n ih =>
    unfold natDigits
    split
    · next h => simp [digitChar_isDigit n h]
    · next h =>
      have hrec := ih (n / 10) (Nat.div_lt_self (by omega) (by omega))
      have hmod := digitChar_isDigit (n % 10) (Nat.mod_lt _ (by omega))
      simp [List.all_append, hrec, hmod]

theorem natDigits_len1 (n : Nat) (h : n < 10) : (natDigits n).length = 1 := by
  unfold natDigits
  simp [h]

theorem natDigits_len2 (n : Nat) (h1 : 10 ≤ n) (h2 : n ≤ 99) :
    (natDigits n).length = 2 := by
  unfold natDigits
  have h : ¬ n < 10 := by omega
  have hq : n / 10 < 10 := (Nat.div_lt_iff_lt_mul (by norm_num)).mpr (by omega)
  simp [h, natDigits_len1 _ hq]

theorem natDigits_len3 (n : Nat) (h1 : 100 ≤ n) (h2 : n ≤ 999) :
    (natDigits n).length = 3 := by
  unfold natDigits
  have h : ¬ n < 10 := by omega
  have hqlo : 10 ≤ n / 10 := (Nat.le_div_iff_mul_le (by norm_num)).mpr (by omega)
  have hqhi : n / 10 < 100 := (Nat.div_lt_iff_lt_mul (by norm_num)).mpr (by omega)
  simp [h, natDigits_len2 (n / 10) hqlo (by omega)]

theorem natDigits_len4 (n : Nat) (h1 : 1000 ≤ n) (h2 : n ≤ 9999) :
    (natDigits n).length = 4 := by
  unfold natDigits
  have h : ¬ n < 10 := by omega
  have hqlo : 100 ≤ n / 10 := (Nat.le_div_iff_mul_le (by norm_num)).mpr (by omega)
  have hqhi : n / 10 < 1000 := (Nat.div_lt_iff_lt_mul (by norm_num)).mpr (by omega)
  simp [h, natDigits_len3 (n / 10) hqlo (by omega)]

/-! ## C8: ticket number format and uniqueness -/

/-- C8.  Format: every generated ticket number — for any 4-digit year (the
runtime value of `datetime.utcnow().year`) and any 6-character random part
drawn from `string.ascii_uppercase + string.digits`, exactly what
`random.choices(..., k=6)` can return — matches `TKT-\x5cd{4}-[A-Z0-9]{6}`.
Uniqueness: inserting through the `unique=True` column constraint preserves
global uniqueness of ticket numbers, so every reachable complaints table has
pairwise-distinct ticket numbers. -/
theorem C8_ticket_format_and_uniqueness :
    (∀ (year : Nat) (random_part : String),
      1000 ≤ year → year ≤ 9999 →
      random_part.toList.length = 6 →
      random_part.toList.all (fun c => c.isUpper || c.isDigit) = true →
      ticketFormatOk (generate_ticket_number year random_part) = true) ∧
    (∀ (db : List Complaint) (c : Complaint) (db' : List Complaint),
      ticketsUnique db → insert_complaint db c = some db' →
      ticketsUnique db') := by
  constructor
  · intro year rp h1 h2 hlen hall
    have hlen4 : (natDigits year).length = 4 := natDigits_len4 year h1 h2
    have hdig := natDigits_all_isDigit year
    have htl : (generate_ticket_number year rp).toList =
        'T' :: 'K' :: 'T' :: '-' :: (natDigits year ++ '-' :: rp.toList) := by
      show ("TKT-" ++ natDecimalRepr year ++ "-" ++ rp).data = _
      rw [String.data_append, String.data_append, String.data_append]
      show ['T', 'K', 'T', '-'] ++ natDigits year ++ ['-'] ++ rp.toList = _
      simp
    rw [ticketFormatOk, htl]
    simp only [ticketFormatChars]
    rw [List.take_left' hlen4, List.drop_left' hlen4]
    simp [hlen4, hdig, hlen, hall]
    constructor
    · exact hlen
    · intro x hx
      simpa using List.all_eq_true.mp hall x hx
  · intro db c db' hu hins
    unfold insert_complaint at hins
    split at hins
    · exact absurd hins (by simp)
    · next hany =>
      obtain rfl : db ++ [c] = db' := by injection hins
      unfold ticketsUnique at hu ⊢
      rw [List.map_append, List.nodup_append]
      refine ⟨hu, List.nodup_singleton _, ?_⟩
      intro a ha hb
      simp only [List.map_cons, List.map_nil, List.mem_singleton] at hb
      obtain ⟨x, hx, rfl⟩ := List.mem_map.mp ha
      apply hany
      exact List.any_eq_true.mpr ⟨x, hx, by simp [hb]⟩

/-- C8 witness: `TKT-2024-A3B5C7` is well-formed, and inserting a first
complaint into an empty table keeps ticket numbers unique. -/
theorem C8_ticket_format_and_uniqueness_witness :
    ticketFormatOk (generate_ticket_number 2024 "A3B5C7") = true ∧
    ticketsUnique [exComplaint] :=
  ⟨C8_ticket_format_and_uniqueness.1 2024 "A3B5C7" (by decide) (by decide)
      (by decide) (by decide),
   C8_ticket_format_and_uniqueness.2 [] exComplaint [exComplaint]
      (by simp [ticketsUnique]) rfl⟩

/-! ## Dashboard trend chart (`app/routes/dashboard.py`,
`get_trend_chart_data`) -/

/-- `days = min(max(7, days), 365)`: the clamp applied to the `days` query
parameter (request default 30). -/
def trend_days (days_param : Int) : Nat := (min (max 7 days_param) 365).toNat

/-- `start_date = datetime.utcnow() - timedelta(days=days)`. -/
def trend_start (now : Nat) (days_param : Int) : Nat :=
  now - trend_days days_param * secondsPerDay

/-- `get_trend_chart_data` (`app/routes/dashboard.py` lines 277–335): clamp
`days`, filter complaints with `created_at >= start_date`, group the counts
by calendar day, then emit one `(day, count)` entry for every day from
`start_date.date()` up to and including today, zero-filled from the grouped
dictionary. -/
def get_trend_chart_data (db : List Complaint) (now : Nat) (days_param : Int) :
    List (Nat × Nat) :=
  let start_time := trend_start now days_param
  let window := db.filter (fun c => decide (start_time ≤ c.created_at))
  let startDay := start_time / secondsPerDay
  let endDay := now / secondsPerDay
  (List.range (endDay - startDay + 1)).map (fun i =>
    (startDay + i,
     (window.filter
        (fun c => decide (c.created_at / secondsPerDay = startDay + i))).length))

/-! ## C5: trend zero-fill density -/

/-- C5 counterexample: with `days=7` the trend chart does not return 7
entries — on an empty database (so every entry is zero-filled) the dense
range runs from `(now - 7 days).date()` through today `inclusive`, which is
8 calendar days. -/
theorem C5_trend_days7_has_8_entries :
    (get_trend_chart_data [] 1000000000 7).length = 8 ∧ (8 : Nat) ≠ 7 := by
  constructor
  · decide
  · decide

/-- C5 (amended).  The `days` parameter is clamped into `[7, 365]` (request
default 30); the trend chart then returns exactly `days + 1` entries — one
per calendar day from `(now - days·24h).date()` through today inclusive, so
`days=7` yields 8 entries — whose dates are strictly increasing consecutive
days with no gaps (entry `i` carries day `start/86400 + i`), each entry
counting the complaints created on that day at or after the instant
`now - days·24h` (the full-day creation count except possibly on the
earliest, partially covered, day).  The hypothesis keeps the subtraction
meaningful: `now` is at least a year past the epoch, as every real clock
reading is. -/
theorem C5_trend_zero_fill (db : List Complaint) (now : Nat) (days_param : Int)
    (hnow : 365 * secondsPerDay ≤ now) :
    7 ≤ trend_days days_param ∧ trend_days days_param ≤ 365 ∧
    (get_trend_chart_data db now days_param).length = trend_days days_param + 1 ∧
    ∀ (i : Nat) (h : i < (get_trend_chart_data db now days_param).length),
      (get_trend_chart_data db now days_param).get ⟨i, h⟩ =
        (trend_start now days_param / secondsPerDay + i,
         (db.filter (fun c =>
            decide (c.created_at / secondsPerDay =
              trend_start now days_param / secondsPerDay + i) &&
            decide (trend_start now days_param ≤ c.created_at))).length) := by
  have h7 : 7 ≤ trend_days days_param := by unfold trend_days; omega
  have h365 : trend_days days_param ≤ 365 := by unfold trend_days; omega
  have hD : 0 < secondsPerDay := by decide
  have hmul : trend_days days_param * secondsPerDay ≤ now := by
    calc trend_days days_param * secondsPerDay
        ≤ 365 * secondsPerDay := Nat.mul_le_mul_right _ h365
      _ ≤ now := hnow
  have hstart : trend_start now days_param / secondsPerDay =
      now / secondsPerDay - trend_days days_param := by
    unfold trend_start
    rw [mul_comm]
    exact Nat.sub_mul_div now secondsPerDay (trend_days days_param)
      (by rw [mul_comm] at hmul; exact hmul)
  have hdaysle : trend_days days_param ≤ now / secondsPerDay :=
    (Nat.le_div_iff_mul_le hD).mpr hmul
  have hspan : now / secondsPerDay - trend_start now days_param / secondsPerDay
      = trend_days days_param := by omega
  refine ⟨h7, h365, ?_, ?_⟩
  · simp only [get_trend_chart_data, List.length_map, List.length_range]
    omega
  · intro i h
    simp only [get_trend_chart_data] at h ⊢
    rw [List.get_map]
    simp only [List.get_range]
    rw [List.filter_filter]

/-- C5 witness: at a concrete clock reading, a default (`days=30`) trend
request over a one-complaint database has exactly `30 + 1` entries and a
clamped window of at least 7 days. -/
theorem C5_trend_zero_fill_witness :
    (get_trend_chart_data [exComplaint] 1000000000 30).length = trend_days 30 + 1 ∧
    7 ≤ trend_days 30 :=
  ⟨(C5_trend_zero_fill [exComplaint] 1000000000 30 (by decide)).2.2.1,
   (C5_trend_zero_fill [exComplaint] 1000000000 30 (by decide)).1⟩
